import Mathlib

/-!
# Verification of the flashdb-rs record-access layer

Shallow embedding of the Rust access layer for the FlashDB engine:
the error taxonomy (`src/error.rs`), the KV / time-series status models
(`src/kvdb/types.rs`, `src/tsdb/types.rs`), value retrieval
(`src/kvdb/mod.rs`, `src/tsdb/mod.rs`), the streaming readers
(`src/kvdb/reader.rs`, `src/tsdb/reader.rs`), the KV pull iterator
(`src/kvdb/iter.rs`), and the file-backed storage emulation
(`src/storage.rs`).

Bytes are modelled as `Nat` (values < 256 where it matters; the erased
marker 0xFF is 255).  Machine integers are `Nat`/`Int` with explicit
`% 2^64` where Rust's release-mode wrapping casts matter.  Host I/O
failures (`std::io::Error`) are outside the model: the filesystem is
assumed to answer every open/seek/read/write, which is the code path
all claims below are about.
-/

/-- The error taxonomy of `src/error.rs` (`enum Error`).  The
`IO(std::io::Error)` variant carries a host error payload and is not
modelled (host I/O failures are assumed absent). -/
inductive Error where
  | Ok
  | EraseError
  | ReadError
  | WriteError
  | PartNotFound
  | KvNameError
  | KvNameExist
  | SavedFull
  | InitFailed
  | UnknownError
  | InvalidArgument
  | KeyNotFound
deriving DecidableEq, Repr

/-- KV record status, `src/kvdb/types.rs` (`enum KVStatus`).  The
discriminants are fixed by the engine ABI (`fdb_kv_status` in the
bindgen output): UNUSED=0, PRE_WRITE=1, WRITE=2, PRE_DELETE=3,
DELETED=4, ERR_HDR=5. -/
inductive KVStatus where
  | UNUSED
  | PRE_WRITE
  | Write
  | PRE_DELETE
  | DELETED
  | ERR_HDR
deriving DecidableEq, Repr

/-- The `#[repr(u32)]` discriminant of each `KVStatus` variant, as laid
down by the engine ABI constants the Rust enum is pinned to. -/
def KVStatus.toRaw : KVStatus → Nat
  | .UNUSED => 0
  | .PRE_WRITE => 1
  | .Write => 2
  | .PRE_DELETE => 3
  | .DELETED => 4
  | .ERR_HDR => 5

/-- `impl From<fdb_kv_status> for KVStatus` (src/kvdb/types.rs:24-32).
The Rust body is `unsafe { core::mem::transmute(value) }`: the
conversion is an unchecked reinterpretation, defined only when the raw
discriminant is one of the six values the enum actually carries.  A
raw value outside that set has no defined result (undefined behavior
in Rust), which the embedding renders as `none`. -/
def KVStatus.ofRaw : Nat → Option KVStatus
  | 0 => some .UNUSED
  | 1 => some .PRE_WRITE
  | 2 => some .Write
  | 3 => some .PRE_DELETE
  | 4 => some .DELETED
  | 5 => some .ERR_HDR
  | _ => none

/-- Time-series log status, `src/tsdb/types.rs` (`enum TSLStatus`).
Engine ABI discriminants (`fdb_tsl_status`): UNUSED=0, PRE_WRITE=1,
WRITE=2, USER_STATUS1=3, DELETED=4, USER_STATUS2=5. -/
inductive TSLStatus where
  | UNUSED
  | PRE_WRITE
  | Write
  | UserStatus1
  | Deleted
  | UserStatus2
deriving DecidableEq, Repr

/-- The `#[repr(u32)]` discriminant of each `TSLStatus` variant. -/
def TSLStatus.toRaw : TSLStatus → Nat
  | .UNUSED => 0
  | .PRE_WRITE => 1
  | .Write => 2
  | .UserStatus1 => 3
  | .Deleted => 4
  | .UserStatus2 => 5

/-- `impl From<fdb_tsl_status_t> for TSLStatus` (src/tsdb/types.rs:18-22).
Again an unchecked `core::mem::transmute`: defined only on the six
in-range discriminants, `none` (undefined behavior) otherwise. -/
def TSLStatus.ofRaw : Nat → Option TSLStatus
  | 0 => some .UNUSED
  | 1 => some .PRE_WRITE
  | 2 => some .Write
  | 3 => some .UserStatus1
  | 4 => some .Deleted
  | 5 => some .UserStatus2
  | _ => none

/-- C4 counterexample: the raw discriminant 6 is outside the defined
set, and the code's `transmute`-based conversion does not map it to
`ERR_HDR` (or to anything at all): it is undefined, not a checked
corruption signal. -/
theorem c4_counterexample :
    KVStatus.ofRaw 6 = none ∧ KVStatus.ofRaw 6 ≠ some KVStatus.ERR_HDR ∧
    TSLStatus.ofRaw 6 = none := by
  refine ⟨rfl, ?_, rfl⟩
  intro h
  simp [KVStatus.ofRaw] at h

/-- C4 (amended): the raw-to-host status conversion is an unchecked
reinterpretation (`transmute`), not a total checked mapping: it agrees
with the ABI discriminant table on every in-range value (round-trips
every defined status), and a discriminant outside the defined set
(≥ 6) has no defined conversion at all — undefined behavior rather
than an `ERR_HDR` corruption signal. -/
theorem c4_status_conversion_unchecked (s : KVStatus) (t : TSLStatus) (v : Nat)
    (hv : 6 ≤ v) :
    KVStatus.ofRaw s.toRaw = some s ∧
    TSLStatus.ofRaw t.toRaw = some t ∧
    KVStatus.ofRaw v = none ∧ TSLStatus.ofRaw v = none := by
  refine ⟨?_, ?_, ?_, ?_⟩
  · cases s <;> rfl
  · cases t <;> rfl
  · match v, hv with
    | (n+6), _ => rfl
  · match v, hv with
    | (n+6), _ => rfl

/-- C4 witness: the amended theorem at `Write`, `UserStatus2` and raw
value 7. -/
theorem c4_witness :
    KVStatus.ofRaw KVStatus.Write.toRaw = some KVStatus.Write ∧
    TSLStatus.ofRaw TSLStatus.UserStatus2.toRaw = some TSLStatus.UserStatus2 ∧
    KVStatus.ofRaw 7 = none ∧ TSLStatus.ofRaw 7 = none :=
  c4_status_conversion_unchecked KVStatus.Write TSLStatus.UserStatus2 7 (by decide)

/-! ## Value retrieval (`KVDB::get`, `TSDB::get_value`)

Both functions first look at the entry's status; in a readable status
they allocate a buffer of exactly `value_len()` bytes, hand it to the
engine's `fdb_blob_read`, and fail with `ReadError` unless the engine
transferred exactly that many bytes.  The engine transfer is the one
external step; the embedding takes the transferred bytes (`readBytes`)
as a parameter, its length standing for the `read_len` the engine
returned. -/

/-- The status dispatch and read-length check of `KVDB::get`
(src/kvdb/mod.rs:250-276), from the point where `fdb_kv_get_obj` has
produced an entry with status `status` and declared value length
`vlen`.  `readBytes` are the bytes the engine's `fdb_blob_read`
deposits in the freshly allocated `vlen`-byte buffer (so the returned
buffer is `readBytes` exactly when the transfer filled it). -/
def kvdb_get_entry_value (status : KVStatus) (vlen : Nat) (readBytes : List Nat) :
    Except Error (Option (List Nat)) :=
  match status with
  | .PRE_WRITE | .Write =>
      if readBytes.length ≠ vlen then .error .ReadError
      else .ok (some readBytes)
  | _ => .ok none

/-- The status dispatch and read-length check of `TSDB::get_value`
(src/tsdb/mod.rs:337-360): readable statuses are `PRE_WRITE`, `Write`
and `UserStatus1`; `UNUSED`, `Deleted` and `UserStatus2` yield
`Ok(None)`. -/
def tsdb_get_value (status : TSLStatus) (vlen : Nat) (readBytes : List Nat) :
    Except Error (Option (List Nat)) :=
  match status with
  | .PRE_WRITE | .Write | .UserStatus1 =>
      if readBytes.length ≠ vlen then .error .ReadError
      else .ok (some readBytes)
  | .UNUSED | .Deleted | .UserStatus2 => .ok none

/-- C2 counterexample: a time-series entry with status `USER_STATUS_2`
and a 3-byte value whose read would succeed in full still yields
`Ok(None)` — the code does not treat `USER_STATUS_2` as readable, so
"any `USER_STATUS_*`" is false at `USER_STATUS_2`. -/
theorem c2_counterexample :
    tsdb_get_value TSLStatus.UserStatus2 3 [1, 2, 3] = .ok none ∧
    tsdb_get_value TSLStatus.UserStatus2 3 [1, 2, 3] ≠ .ok (some [1, 2, 3]) := by
  constructor
  · rfl
  · intro h
    simp [tsdb_get_value] at h

/-- C2 (amended): `TSDB::get_value` returns the value exactly for the
statuses `PRE_WRITE`, `WRITTEN` and `USER_STATUS_1` (given a full
transfer); every other status — `UNUSED`, `DELETED` and also
`USER_STATUS_2` — yields `Ok(None)` rather than an error. -/
theorem c2_tsdb_readable_statuses (status : TSLStatus) (vlen : Nat)
    (readBytes : List Nat) (hfull : readBytes.length = vlen) :
    (status = .PRE_WRITE ∨ status = .Write ∨ status = .UserStatus1 →
      tsdb_get_value status vlen readBytes = .ok (some readBytes)) ∧
    (status = .UNUSED ∨ status = .Deleted ∨ status = .UserStatus2 →
      tsdb_get_value status vlen readBytes = .ok none) := by
  constructor
  · rintro (rfl | rfl | rfl) <;> simp [tsdb_get_value, hfull]
  · rintro (rfl | rfl | rfl) <;> rfl

/-- C2 witness: the amended theorem at status `UserStatus1` (readable)
and, separately instantiated inside, shows the concrete readable case. -/
theorem c2_witness :
    tsdb_get_value TSLStatus.UserStatus1 2 [9, 8] = .ok (some [9, 8]) :=
  (c2_tsdb_readable_statuses TSLStatus.UserStatus1 2 [9, 8] rfl).1
    (Or.inr (Or.inr rfl))

/-- C3: on both retrieval paths, status `DELETED` or `UNUSED` yields
`Ok(None)` — never an error — and in status `WRITTEN` or `PRE_WRITE`
any successfully returned buffer has length exactly the entry's
declared `value_len()` (a full transfer indeed succeeds with that
buffer). -/
theorem c3_status_gating (vlen : Nat) (readBytes : List Nat)
    (ks : KVStatus) (ts : TSLStatus)
    (hk : ks = .DELETED ∨ ks = .UNUSED) (ht : ts = .Deleted ∨ ts = .UNUSED) :
    kvdb_get_entry_value ks vlen readBytes = .ok none ∧
    tsdb_get_value ts vlen readBytes = .ok none ∧
    (∀ s : KVStatus, s = .Write ∨ s = .PRE_WRITE →
      ∀ b, kvdb_get_entry_value s vlen readBytes = .ok (some b) →
        b.length = vlen) ∧
    (∀ s : TSLStatus, s = .Write ∨ s = .PRE_WRITE →
      ∀ b, tsdb_get_value s vlen readBytes = .ok (some b) →
        b.length = vlen) ∧
    (readBytes.length = vlen →
      ∀ s : KVStatus, s = .Write ∨ s = .PRE_WRITE →
        kvdb_get_entry_value s vlen readBytes = .ok (some readBytes)) := by
  refine ⟨?_, ?_, ?_, ?_, ?_⟩
  · rcases hk with rfl | rfl <;> rfl
  · rcases ht with rfl | rfl <;> rfl
  · rintro s (rfl | rfl) b hb <;>
      · simp only [kvdb_get_entry_value] at hb
        by_cases h : readBytes.length = vlen
        · simp [h] at hb
          subst hb
          exact h
        · simp [h] at hb
  · rintro s (rfl | rfl) b hb <;>
      · simp only [tsdb_get_value] at hb
        by_cases h : readBytes.length = vlen
        · simp [h] at hb
          subst hb
          exact h
        · simp [h] at hb
  · rintro hfull s (rfl | rfl) <;> simp [kvdb_get_entry_value, hfull]

/-- C3 witness: the gating theorem at `DELETED`/`Deleted`, with the
success case instantiated at a full 2-byte transfer. -/
theorem c3_witness :
    kvdb_get_entry_value KVStatus.DELETED 2 [7, 7] = .ok none ∧
    tsdb_get_value TSLStatus.Deleted 2 [7, 7] = .ok none ∧
    kvdb_get_entry_value KVStatus.Write 2 [7, 7] = .ok (some [7, 7]) := by
  have h := c3_status_gating 2 [7, 7] KVStatus.DELETED TSLStatus.Deleted
    (Or.inl rfl) (Or.inl rfl)
  exact ⟨h.1, h.2.1, h.2.2.2.2 rfl KVStatus.Write (Or.inl rfl)⟩

/-- C7: whenever the engine transfers fewer bytes than the declared
value length of a readable entry, both `KVDB::get` and
`TSDB::get_value` fail with `ReadError` — neither ever returns a
truncated buffer as a success. -/
theorem c7_short_read_is_error (vlen : Nat) (readBytes : List Nat)
    (hshort : readBytes.length < vlen)
    (ks : KVStatus) (ts : TSLStatus)
    (hk : ks = .Write ∨ ks = .PRE_WRITE)
    (ht : ts = .Write ∨ ts = .PRE_WRITE ∨ ts = .UserStatus1) :
    kvdb_get_entry_value ks vlen readBytes = .error .ReadError ∧
    tsdb_get_value ts vlen readBytes = .error .ReadError := by
  constructor
  · rcases hk with rfl | rfl <;> simp [kvdb_get_entry_value, Nat.ne_of_lt hshort]
  · rcases ht with rfl | rfl | rfl <;> simp [tsdb_get_value, Nat.ne_of_lt hshort]

/-- C7 witness: a 1-byte transfer against a declared 3-byte value is a
`ReadError` on both paths. -/
theorem c7_witness :
    kvdb_get_entry_value KVStatus.Write 3 [5] = .error .ReadError ∧
    tsdb_get_value TSLStatus.Write 3 [5] = .error .ReadError :=
  c7_short_read_is_error 3 [5] (by decide) KVStatus.Write TSLStatus.Write
    (Or.inl rfl) (Or.inl rfl)

/-! ## Key-length validation (`KVDB::to_cstr` and the operations using it)

Every KVDB operation that takes a key (`set`, `get`, `delete`,
`get_reader`) first runs the key through `to_cstr`
(src/kvdb/mod.rs:173-183), which rejects keys longer than the engine
constant `FDB_KV_NAME_MAX`.  The engine call that follows is external;
the embedding abstracts it as a function argument so each operation's
validation path is exactly the source's. -/

/-- Engine ABI constant `FDB_KV_NAME_MAX` (bindgen output of the C
engine's `fdb_cfg.h`; the engine's default name-length limit, matching
the 64-byte name field of `fdb_kv` in src/kvdb/types.rs). -/
def FDB_KV_NAME_MAX : Nat := 64

/-- `KVDB::to_cstr` (src/kvdb/mod.rs:173-183): keys longer than
`FDB_KV_NAME_MAX` are rejected with `Error::KvNameError`; otherwise
the key bytes are copied into the key buffer and NUL-terminated. -/
def to_cstr (key : List Nat) : Except Error (List Nat) :=
  if key.length > FDB_KV_NAME_MAX then .error .KvNameError
  else .ok (key ++ [0])

/-- `KVDB::set` (src/kvdb/mod.rs:236-239): `fdb_blob_write` runs
`to_cstr` on the key, then hands the C string to `fdb_kv_set_blob`
(abstracted as `engine`). -/
def kvdb_set (engine : List Nat → Except Error Unit) (key : List Nat) :
    Except Error Unit :=
  (to_cstr key).bind engine

/-- The key path of `KVDB::get` (src/kvdb/mod.rs:250-276):
`fdb_kv_get_obj` runs `to_cstr` on the key, then queries the engine
(abstracted as `engine`, returning the entry's status/length/bytes
when the key exists); the rest is `kvdb_get_entry_value`. -/
def kvdb_get (engine : List Nat → Option (KVStatus × Nat × List Nat))
    (key : List Nat) : Except Error (Option (List Nat)) :=
  (to_cstr key).bind fun cstr =>
    match engine cstr with
    | none => .ok none
    | some (status, vlen, readBytes) => kvdb_get_entry_value status vlen readBytes

/-- `KVDB::delete` (src/kvdb/mod.rs:281-285): `to_cstr`, then
`fdb_kv_del` (abstracted as `engine`). -/
def kvdb_delete (engine : List Nat → Except Error Unit) (key : List Nat) :
    Except Error Unit :=
  (to_cstr key).bind engine

/-- `KVDB::get_reader` (src/kvdb/mod.rs:300-311): `to_cstr`, then
`fdb_kv_get_obj`; a missing key is `Error::ReadError`, otherwise a
reader positioned at 0 over the entry's value length is returned
(the reader is represented by its `(position, value_len)` state). -/
def kvdb_get_reader (engine : List Nat → Option Nat) (key : List Nat) :
    Except Error (Nat × Nat) :=
  (to_cstr key).bind fun cstr =>
    match engine cstr with
    | none => .error .ReadError
    | some vlen => .ok (0, vlen)

/-- C5 counterexample: a 65-byte key (one past `FDB_KV_NAME_MAX`) makes
`set`, `get`, `delete` and `get_reader` all fail with `KvNameError`,
not with `InvalidArgument` as the claim states — shown here against
engines that would succeed on any key. -/
theorem c5_counterexample :
    kvdb_set (fun _ => .ok ()) (List.replicate 65 97) = .error .KvNameError ∧
    kvdb_get (fun _ => none) (List.replicate 65 97) = .error .KvNameError ∧
    kvdb_delete (fun _ => .ok ()) (List.replicate 65 97) = .error .KvNameError ∧
    kvdb_get_reader (fun _ => some 3) (List.replicate 65 97) = .error .KvNameError ∧
    kvdb_set (fun _ => .ok ()) (List.replicate 65 97) ≠ .error .InvalidArgument := by
  refine ⟨rfl, rfl, rfl, rfl, ?_⟩
  intro h
  simp [kvdb_set, to_cstr, FDB_KV_NAME_MAX, Except.bind] at h

/-- C5 (amended): for every key longer than `FDB_KV_NAME_MAX`, every
KVDB operation taking that key (`set`, `get`, `delete`, `get_reader`)
fails with `Error::KvNameError` (the dedicated name-length error, not
`InvalidArgument`), regardless of what the engine would answer. -/
theorem c5_long_key_rejected (key : List Nat)
    (hlen : key.length > FDB_KV_NAME_MAX)
    (e1 e3 : List Nat → Except Error Unit)
    (e2 : List Nat → Option (KVStatus × Nat × List Nat))
    (e4 : List Nat → Option Nat) :
    kvdb_set e1 key = .error .KvNameError ∧
    kvdb_get e2 key = .error .KvNameError ∧
    kvdb_delete e3 key = .error .KvNameError ∧
    kvdb_get_reader e4 key = .error .KvNameError := by
  refine ⟨?_, ?_, ?_, ?_⟩ <;>
    simp [kvdb_set, kvdb_get, kvdb_delete, kvdb_get_reader, to_cstr, hlen,
      Except.bind]

/-- C5 witness: the amended theorem at a concrete 65-byte key and
concrete engines. -/
theorem c5_witness :
    kvdb_set (fun _ => .ok ()) (List.replicate 65 98) = .error .KvNameError ∧
    kvdb_get (fun _ => none) (List.replicate 65 98) = .error .KvNameError ∧
    kvdb_delete (fun _ => .ok ()) (List.replicate 65 98) = .error .KvNameError ∧
    kvdb_get_reader (fun _ => some 3) (List.replicate 65 98) = .error .KvNameError :=
  c5_long_key_rejected (List.replicate 65 98) (by decide)
    (fun _ => .ok ()) (fun _ => .ok ()) (fun _ => none) (fun _ => some 3)

/-! ## Streaming readers (`KVReader`, `TSDBReader`)

Both readers keep a byte `position : usize` and are bound to one
entry; the reader state is `(position, valueLen)` with `valueLen` the
entry's declared value length (`value_len` / `log_len`, a `u32` field
widened to `usize`).  `seek` computes the new position with Rust
release-mode cast semantics: `offset as usize` on a `u64`, and
`(… as i64 + offset) as usize` on the other arms, which as a whole is
the mathematical target taken modulo 2^64 (wrapping i64 addition
followed by the u64 reinterpretation compose to exactly that). -/

/-- `embedded_io::SeekFrom`: `Start(u64)`, `End(i64)`, `Current(i64)`. -/
inductive SeekFrom where
  | start (offset : Nat)
  | fromEnd (offset : Int)
  | current (offset : Int)

/-- Machine-integer range bounds of the `SeekFrom` payloads: `Start`
carries a `u64`, `End` and `Current` carry an `i64`. -/
def SeekFrom.inRange : SeekFrom → Prop
  | .start o => o < 2 ^ 64
  | .fromEnd o => -(2 ^ 63) ≤ o ∧ o < 2 ^ 63
  | .current o => -(2 ^ 63) ≤ o ∧ o < 2 ^ 63

/-- Reader cursor state: `position` (usize, the `position` field) and
`valueLen` (the bound entry's `value_len()` / `log_len as usize`). -/
structure ReaderState where
  position : Nat
  valueLen : Nat
deriving DecidableEq, Repr

/-- 2^64, the usize/u64 wrap modulus. -/
def U64_MOD : Nat := 2 ^ 64

/-- The mathematical seek target of the `match pos` in
`KVReader::seek` / `TSDBReader::seek`: `Start(o)` → `o`,
`End(o)` → `value_len + o`, `Current(o)` → `position + o`. -/
def seekTarget (r : ReaderState) : SeekFrom → Int
  | .start o => (o : Int)
  | .fromEnd o => (r.valueLen : Int) + o
  | .current o => (r.position : Int) + o

/-- `impl Seek for KVReader` (src/kvdb/reader.rs:57-73): computes
`new_pos` with the wrapping casts described above, rejects
`new_pos > total_len` with `InvalidArgument` (leaving `position`
untouched), and otherwise stores and returns the new position. -/
def kvreader_seek (r : ReaderState) (pos : SeekFrom) :
    Except Error Nat × ReaderState :=
  let newPos := ((seekTarget r pos) % (U64_MOD : Int)).toNat
  if newPos > r.valueLen then (.error .InvalidArgument, r)
  else (.ok newPos, { r with position := newPos })

/-- `impl Seek for TSDBReader` (src/tsdb/reader.rs:44-58): same
computation as `KVReader::seek`, with `total_len = log_len as usize`. -/
def tsdbreader_seek (r : ReaderState) (pos : SeekFrom) :
    Except Error Nat × ReaderState :=
  let newPos := ((seekTarget r pos) % (U64_MOD : Int)).toNat
  if newPos > r.valueLen then (.error .InvalidArgument, r)
  else (.ok newPos, { r with position := newPos })

/-- `impl Read for KVReader` (src/kvdb/reader.rs:38-46): at
`position >= value_len` it returns `Ok(0)` without touching anything;
otherwise it asks the engine's `fdb_blob_read` (whose transferred
count is the parameter `readLen`) and advances `position` by it. -/
def kvreader_read (r : ReaderState) (readLen : Nat) :
    Except Error Nat × ReaderState :=
  if r.valueLen ≤ r.position then (.ok 0, r)
  else (.ok readLen, { r with position := r.position + readLen })

/-- `impl Read for TSDBReader` (src/tsdb/reader.rs:29-40): identical
control flow with `total_len = log_len as usize`. -/
def tsdbreader_read (r : ReaderState) (readLen : Nat) :
    Except Error Nat × ReaderState :=
  if r.valueLen ≤ r.position then (.ok 0, r)
  else (.ok readLen, { r with position := r.position + readLen })

/-- C6: for a reader over a value of length `L` (a `u32` length) at a
position in `[0, L]`, with in-range seek offsets: (a) a seek whose
mathematical target lies outside `[0, L]` fails with `InvalidArgument`
and leaves the reader unchanged; (b) a seek whose target is exactly
`L` succeeds and sets the position to `L`; (c) any read at a position
`≥` the value length returns 0 bytes without error.  All of (a)-(c)
hold for both the KV reader and the TSDB reader. -/
theorem c6_reader_boundaries (r : ReaderState) (pos : SeekFrom)
    (hL : r.valueLen < 2 ^ 32) (hp : r.position ≤ r.valueLen)
    (hr : pos.inRange) :
    ((seekTarget r pos < 0 ∨ (r.valueLen : Int) < seekTarget r pos) →
      kvreader_seek r pos = (.error .InvalidArgument, r) ∧
      tsdbreader_seek r pos = (.error .InvalidArgument, r)) ∧
    (seekTarget r pos = (r.valueLen : Int) →
      kvreader_seek r pos = (.ok r.valueLen, { r with position := r.valueLen }) ∧
      tsdbreader_seek r pos = (.ok r.valueLen, { r with position := r.valueLen })) ∧
    (∀ (s : ReaderState) (n : Nat), s.valueLen ≤ s.position →
      kvreader_read s n = (.ok 0, s) ∧ tsdbreader_read s n = (.ok 0, s)) := by
  refine ⟨?_, ?_, ?_⟩
  · intro h
    have hgt : ((seekTarget r pos) % (U64_MOD : Int)).toNat > r.valueLen := by
      rcases pos with o | o | o <;>
        simp only [seekTarget, SeekFrom.inRange] at hr h ⊢ <;>
        simp only [U64_MOD] <;>
        omega
    constructor <;> simp [kvreader_seek, tsdbreader_seek, hgt]
  · intro h
    have heq : ((seekTarget r pos) % (U64_MOD : Int)).toNat = r.valueLen := by
      rw [h]
      simp only [U64_MOD]
      omega
    constructor <;> simp [kvreader_seek, tsdbreader_seek, heq]
  · intro s n h
    constructor <;> simp [kvreader_read, tsdbreader_read, h]

/-- C6 witness: a reader over a 10-byte value at position 4;
`Start(11)` is rejected in place, `End(0)` lands exactly on 10, and a
read at position 10 returns 0 bytes. -/
theorem c6_witness :
    kvreader_seek ⟨4, 10⟩ (.start 11) = (.error .InvalidArgument, ⟨4, 10⟩) ∧
    tsdbreader_seek ⟨4, 10⟩ (.fromEnd 0) = (.ok 10, ⟨10, 10⟩) ∧
    kvreader_read ⟨10, 10⟩ 5 = (.ok 0, ⟨10, 10⟩) := by
  have h := c6_reader_boundaries ⟨4, 10⟩ (.start 11) (by decide) (by decide)
    (by simp [SeekFrom.inRange])
  have h2 := c6_reader_boundaries ⟨4, 10⟩ (.fromEnd 0) (by decide) (by decide)
    (by simp [SeekFrom.inRange])
  refine ⟨?_, ?_, ?_⟩
  · exact (h.1 (by simp [seekTarget])).1
  · exact (h2.2.1 (by simp [seekTarget])).2
  · exact (h.2.2 ⟨10, 10⟩ 5 (by decide)).1

/-! ## KV pull iterator (`KVDBIterator`)

The iterator owns an `is_done` flag and the engine cursor
(`fdb_kv_iterator`).  The engine's `fdb_kv_iterate` is modelled by a
list of the entries it will still yield (`remaining`); a call against
an empty list is the engine reporting exhaustion (returning `false`).
`engineCalls` counts invocations of `fdb_kv_iterate`, so "the engine
is not invoked again" is a statement about the state. -/

/-- The entry snapshot an iteration step yields (`KVEntry` via
`self.iterator.curr_kv.into()`), reduced to the accessors the claims
use. -/
structure KVEntryModel where
  status : KVStatus
  valueLen : Nat
deriving DecidableEq, Repr

/-- `KVDBIterator` state (src/kvdb/iter.rs:7-21): the `is_done` flag,
the engine cursor (as the entries the engine will still yield), and
an instrumentation counter of `fdb_kv_iterate` calls. -/
structure KVIterState where
  remaining : List KVEntryModel
  isDone : Bool
  engineCalls : Nat
deriving DecidableEq, Repr

/-- `Iterator::next` for `KVDBIterator` (src/kvdb/iter.rs:42-53):
short-circuits on `is_done`; otherwise calls `fdb_kv_iterate`, and on
engine-reported exhaustion sets `is_done` and yields nothing, else
yields the current entry. -/
def kviter_next (s : KVIterState) : Option KVEntryModel × KVIterState :=
  if s.isDone then (none, s)
  else
    match s.remaining with
    | [] => (none, { s with isDone := true, engineCalls := s.engineCalls + 1 })
    | e :: rest =>
        (some e, { s with remaining := rest, engineCalls := s.engineCalls + 1 })

/-- `KVDBIterator::next_reader` (src/kvdb/iter.rs:24-37): identical
control flow; a successful step yields a `KVReader` positioned at 0
over the yielded entry. -/
def kviter_next_reader (s : KVIterState) : Option ReaderState × KVIterState :=
  if s.isDone then (none, s)
  else
    match s.remaining with
    | [] => (none, { s with isDone := true, engineCalls := s.engineCalls + 1 })
    | e :: rest =>
        (some ⟨0, e.valueLen⟩,
          { s with remaining := rest, engineCalls := s.engineCalls + 1 })

/-- `k` consecutive `next()` calls, collecting the yields. -/
def kviter_run : Nat → KVIterState → List (Option KVEntryModel) × KVIterState
  | 0, s => ([], s)
  | n + 1, s =>
      let step := kviter_next s
      let rest := kviter_run n step.2
      (step.1 :: rest.1, rest.2)

/-- C9: when the engine reports exhaustion, the iterator enters the
terminal done state; and from a done state, every later `next()`
returns nothing with the state — including the engine-call counter —
unchanged (no re-entry, no reset), and `next_reader()` likewise. -/
theorem c9_iterator_terminal (s : KVIterState) :
    (s.isDone = false → s.remaining = [] →
      (kviter_next s).1 = none ∧ (kviter_next s).2.isDone = true ∧
      (kviter_next_reader s).1 = none ∧ (kviter_next_reader s).2.isDone = true) ∧
    (s.isDone = true →
      (∀ k, kviter_run k s = (List.replicate k none, s)) ∧
      kviter_next_reader s = (none, s)) := by
  constructor
  · intro hdone hrem
    simp [kviter_next, kviter_next_reader, hdone, hrem]
  · intro hdone
    have hstep : kviter_next s = (none, s) := by simp [kviter_next, hdone]
    constructor
    · intro k
      induction k with
      | zero => rfl
      | succ n ih => simp [kviter_run, hstep, ih, List.replicate_succ]
    · simp [kviter_next_reader, hdone]

/-- C9 witness: an iterator whose engine is freshly exhausted flips to
done, and from the done state three further calls all yield nothing
with the engine-call counter frozen. -/
theorem c9_witness :
    (kviter_next ⟨[], false, 5⟩).2.isDone = true ∧
    kviter_run 3 ⟨[], true, 6⟩ = ([none, none, none], ⟨[], true, 6⟩) ∧
    kviter_next_reader ⟨[], true, 6⟩ = (none, ⟨[], true, 6⟩) := by
  have h1 := (c9_iterator_terminal ⟨[], false, 5⟩).1 rfl rfl
  have h2 := (c9_iterator_terminal ⟨[], true, 6⟩).2 rfl
  exact ⟨h1.2.1, h2.1 3, h2.2⟩

/-! ## Database initialization (`KVDB::init`, `TSDB::init`)

Both `init` methods begin with `if self.initialized { return Ok(()); }`
and only set `initialized = true` after the engine's init call
succeeds.  The embedding keeps the flag, the two configuration values
the method writes (`FDB_*_CTRL_SET_SEC_SIZE`, `FDB_*_CTRL_SET_MAX_SIZE`)
and a counter of engine-init invocations; the engine's verdict
(`fdb_kvdb_init` / `fdb_tsdb_init`) is the `engineResult` parameter
(`none` = `FDB_NO_ERR`). -/

/-- State of a database handle as far as `init` touches it. -/
structure DBInitState where
  inited : Bool
  secSizeCfg : Nat
  maxSizeCfg : Nat
  engineInitCalls : Nat
deriving DecidableEq, Repr

/-- `KVDB::init` (src/kvdb/mod.rs:123-170): early return when already
initialized; otherwise writes the sector-size and max-size controls,
invokes the engine's `fdb_kvdb_init`, and marks the handle
initialized only on `FDB_NO_ERR`. -/
def kvdb_init (engineResult : Option Error) (eraseSize capacity : Nat)
    (s : DBInitState) : Except Error Unit × DBInitState :=
  if s.inited then (.ok (), s)
  else
    let s1 : DBInitState :=
      { s with secSizeCfg := eraseSize, maxSizeCfg := capacity,
               engineInitCalls := s.engineInitCalls + 1 }
    match engineResult with
    | none => (.ok (), { s1 with inited := true })
    | some e => (.error e, s1)

/-- `TSDB::init` (src/tsdb/mod.rs:156-196): the same early-return /
configure / engine-init / mark-initialized sequence around
`fdb_tsdb_init`. -/
def tsdb_init (engineResult : Option Error) (eraseSize capacity : Nat)
    (s : DBInitState) : Except Error Unit × DBInitState :=
  if s.inited then (.ok (), s)
  else
    let s1 : DBInitState :=
      { s with secSizeCfg := eraseSize, maxSizeCfg := capacity,
               engineInitCalls := s.engineInitCalls + 1 }
    match engineResult with
    | none => (.ok (), { s1 with inited := true })
    | some e => (.error e, s1)

/-- C10: `init` on an already-initialized handle returns `Ok(())` with
the handle state — configuration values and engine-init call counter
included — exactly unchanged, for both KVDB and TSDB; and a first
successful `init` does set the flag, so the idempotence applies to
every handle that ever initialized successfully. -/
theorem c10_init_idempotent (s : DBInitState) (er : Option Error)
    (a b : Nat) (hinit : s.inited = true) :
    kvdb_init er a b s = (.ok (), s) ∧
    tsdb_init er a b s = (.ok (), s) ∧
    (∀ (t : DBInitState) (a' b' : Nat), t.inited = false →
      (kvdb_init none a' b' t).2.inited = true ∧
      (tsdb_init none a' b' t).2.inited = true) := by
  refine ⟨?_, ?_, ?_⟩
  · simp [kvdb_init, hinit]
  · simp [tsdb_init, hinit]
  · intro t a' b' ht
    constructor <;> simp [kvdb_init, tsdb_init, ht]

/-- C10 witness: a handle that initialized successfully (flag set,
engine called once) answers a second `init` with `Ok(())` and an
untouched state, whatever the engine would now say. -/
theorem c10_witness :
    kvdb_init (some Error.InitFailed) 4096 65536 ⟨true, 4096, 65536, 1⟩ =
      (.ok (), ⟨true, 4096, 65536, 1⟩) ∧
    tsdb_init (some Error.InitFailed) 4096 65536 ⟨true, 4096, 65536, 1⟩ =
      (.ok (), ⟨true, 4096, 65536, 1⟩) := by
  have h := c10_init_idempotent ⟨true, 4096, 65536, 1⟩ (some Error.InitFailed)
    4096 65536 rfl
  exact ⟨h.1, h.2.1⟩

/-! ## File-backed storage emulation (`StdStorage`, src/storage.rs)

The filesystem is modelled as a map from unit (sector) index to the
unit file's bytes (`none` = the file does not exist yet); `Single`
keeps everything under index 0.  The LRU handle cache is the list of
cached indices, most recently used first, capacity 8.  Host I/O
errors are assumed absent (see the header), so `read` transfers
exactly the bytes a regular file yields at the given offset:
`min(buf.len, file_len - offset)` of them, 0 at or past end-of-file. -/

/-- File storage strategy (src/storage.rs:31-37). -/
inductive FileStrategy where
  | Single
  | Multi
deriving DecidableEq, Repr

/-- `StdStorage` (src/storage.rs:42-51) together with the filesystem it
owns: `files` maps a sector index to the bytes of its backing file
(`none` if never created); `cache` is the LRU file-handle cache (most
recent first, capacity 8); `position` is the logical cursor. -/
structure StdStorage where
  strategy : FileStrategy
  secSize : Nat
  files : Nat → Option (List Nat)
  cache : List Nat
  position : Nat

/-- Point update of the filesystem map. -/
def fileUpdate (files : Nat → Option (List Nat)) (k : Nat) (v : List Nat) :
    Nat → Option (List Nat) :=
  fun j => if j = k then some v else files j

/-- LRU insert of a fresh key (`LruCache::put`), capacity 8: the key
moves to the front and the least recently used entry falls off. -/
def lruPut (cache : List Nat) (k : Nat) : List Nat :=
  (k :: cache.filter (fun x => x ≠ k)).take 8

/-- LRU touch of a present key (`LruCache::get_mut`): the key moves to
the front. -/
def lruTouch (cache : List Nat) (k : Nat) : List Nat :=
  k :: cache.filter (fun x => x ≠ k)

/-- The `(sector_index, offset_in_file)` computation of
`StdStorage::get_file_and_offset` (src/storage.rs:84-92): sector part. -/
def locateSector (s : StdStorage) : Nat :=
  match s.strategy with
  | .Single => 0
  | .Multi => s.position / s.secSize

/-- The `(sector_index, offset_in_file)` computation of
`StdStorage::get_file_and_offset` (src/storage.rs:84-92): offset part. -/
def locateOffset (s : StdStorage) : Nat :=
  match s.strategy with
  | .Single => s.position
  | .Multi => s.position % s.secSize

/-- `StdStorage::get_file_and_offset` (src/storage.rs:84-111): resolves
the cursor to a sector and offset, opens (creating if absent) and
caches the unit file on a cache miss, refreshes the LRU order on a
hit, and hands back the sector and in-file offset. -/
def get_file_and_offset (s : StdStorage) : StdStorage × Nat × Nat :=
  let sector := locateSector s
  let offset := locateOffset s
  if s.cache.contains sector then
    ({ s with cache := lruTouch s.cache sector }, sector, offset)
  else
    let files :=
      match s.files sector with
      | some _ => s.files
      | none => fileUpdate s.files sector []
    ({ s with files := files, cache := lruPut s.cache sector }, sector, offset)

/-- `std::fs::File::read` after seeking a regular file to `offset`:
the transferred bytes, `min(bufLen, content.length - offset)` of them. -/
def fileReadAt (content : List Nat) (offset bufLen : Nat) : List Nat :=
  (content.drop offset).take bufLen

/-- `impl Read for StdStorage` (src/storage.rs:118-126): resolve the
file and offset, read into the buffer, advance the cursor by the
byte count the file yielded, and return `Ok(bytes_read)`.  The result
is the transferred bytes (their length is the returned count); no
marker fill happens on end-of-file. -/
def stdstorage_read (s : StdStorage) (bufLen : Nat) : List Nat × StdStorage :=
  let gfo := get_file_and_offset s
  let bytes := fileReadAt ((gfo.1.files gfo.2.1).getD []) gfo.2.2 bufLen
  (bytes, { gfo.1 with position := gfo.1.position + bytes.length })

/-- Write `data` into `content` at `offset` the way seek-then-write
does on a host file: bytes before `offset` survive, a gap past the old
end is zero-filled (sparse-file semantics), bytes after the written
range survive. -/
def fileWriteAt (content : List Nat) (offset : Nat) (data : List Nat) : List Nat :=
  content.take offset ++ List.replicate (offset - content.length) 0 ++ data
    ++ content.drop (offset + data.length)

/-- `impl Storage for StdStorage::erase` (src/storage.rs:161-201):
`Multi` demands `addr % sec_size == 0 && size == sec_size`
(`InvalidArgument` otherwise), then the unit's handle is popped from
the cache, the unit file is truncated to zero length and rewritten
full of 0xFF; `Single` overwrites the byte range in place without
truncation.  The logical cursor is untouched. -/
def stdstorage_erase (s : StdStorage) (addr size : Nat) :
    Except Error Unit × StdStorage :=
  match s.strategy with
  | .Single =>
      let sector := 0
      let offset := addr
      let s1 := { s with cache := s.cache.filter (fun x => x ≠ sector) }
      let content0 := (s1.files sector).getD []
      let content := fileWriteAt content0 offset (List.replicate size 255)
      (.ok (), { s1 with files := fileUpdate s1.files sector content })
  | .Multi =>
      if addr % s.secSize ≠ 0 ∨ size ≠ s.secSize then
        (.error .InvalidArgument, s)
      else
        let sector := addr / s.secSize
        let s1 := { s with cache := s.cache.filter (fun x => x ≠ sector) }
        let content := fileWriteAt [] 0 (List.replicate size 255)
        (.ok (), { s1 with files := fileUpdate s1.files sector content })

/-- A fresh file-backed medium: nothing ever written, no file exists,
empty handle cache, cursor at 0 (Single strategy, 4096-byte units). -/
def freshSingleStorage : StdStorage :=
  { strategy := .Single, secSize := 4096, files := fun _ => none,
    cache := [], position := 0 }

/-- C1 counterexample: on a fresh medium a 4-byte read transfers 0
bytes — a short count with the buffer untouched — not four 0xFF
bytes; the EOF-fill behavior the claim describes does not exist in
`StdStorage::read`. -/
theorem c1_counterexample :
    (stdstorage_read freshSingleStorage 4).1 = [] ∧
    (stdstorage_read freshSingleStorage 4).1.length = 0 ∧
    (stdstorage_read freshSingleStorage 4).1 ≠ List.replicate 4 255 := by
  refine ⟨rfl, rfl, ?_⟩
  intro h
  simp [stdstorage_read, get_file_and_offset, freshSingleStorage, locateSector,
    locateOffset, fileUpdate, fileReadAt, List.replicate] at h

/-- C1 (amended): `StdStorage::read` does not fill anything with the
erased-value marker: it transfers exactly
`min(requested, file_len - offset)` bytes of the unit file under the
cursor (so it returns a short count when it hits end-of-file),
advances the cursor by that count only, and when the cursor is at or
past the end of the unit file — in particular on a fresh medium with
no file at all — it succeeds with 0 bytes transferred. -/
theorem c1_read_short_at_eof (s : StdStorage) (bufLen : Nat) :
    (stdstorage_read s bufLen).1.length =
      min bufLen (((s.files (locateSector s)).getD []).length - locateOffset s) ∧
    (stdstorage_read s bufLen).2.position =
      s.position + (stdstorage_read s bufLen).1.length ∧
    (((s.files (locateSector s)).getD []).length ≤ locateOffset s →
      (stdstorage_read s bufLen).1 = []) := by
  have hfile : ((get_file_and_offset s).1.files (get_file_and_offset s).2.1).getD []
      = (s.files (locateSector s)).getD [] := by
    by_cases hc : locateSector s ∈ s.cache
    · simp [get_file_and_offset, hc]
    · rcases h : s.files (locateSector s) with _ | c <;>
        simp [get_file_and_offset, hc, h, fileUpdate]
  have hsec : (get_file_and_offset s).2.1 = locateSector s := by
    by_cases hc : locateSector s ∈ s.cache <;> simp [get_file_and_offset, hc]
  have hoff : (get_file_and_offset s).2.2 = locateOffset s := by
    by_cases hc : locateSector s ∈ s.cache <;> simp [get_file_and_offset, hc]
  have hpos : (get_file_and_offset s).1.position = s.position := by
    by_cases hc : locateSector s ∈ s.cache <;> simp [get_file_and_offset, hc]
  refine ⟨?_, ?_, ?_⟩
  · simp [stdstorage_read, hfile, hoff, fileReadAt, Nat.min_comm]
  · simp [stdstorage_read, hpos]
  · intro h
    simp [stdstorage_read, hfile, hoff, fileReadAt, List.drop_eq_nil_of_le h]

/-- C1 witness: the amended theorem at the fresh medium and a 4-byte
request: 0 bytes transferred, cursor still at 0, empty result. -/
theorem c1_witness :
    (stdstorage_read freshSingleStorage 4).1.length = 0 ∧
    (stdstorage_read freshSingleStorage 4).2.position = 0 ∧
    (stdstorage_read freshSingleStorage 4).1 = [] := by
  have h := c1_read_short_at_eof freshSingleStorage 4
  refine ⟨?_, ?_, h.2.2 (by simp [freshSingleStorage, locateSector, locateOffset])⟩
  · rw [h.1]
    simp [freshSingleStorage, locateSector, locateOffset]
  · rw [h.2.1, h.1]
    simp [freshSingleStorage, locateSector, locateOffset]

/-- C8: on a `Multi` medium, `erase(addr, size)` with `addr` not a
multiple of the erase-unit size or `size` different from it fails
with `InvalidArgument` leaving the storage untouched; with the
precondition met it succeeds, the unit's handle is no longer cached,
and the unit file's content is exactly `size` copies of the
erased-value marker 0xFF (truncate + rewrite), other units untouched. -/
theorem c8_multi_erase (s : StdStorage) (addr size : Nat)
    (hM : s.strategy = .Multi) :
    ((addr % s.secSize ≠ 0 ∨ size ≠ s.secSize) →
      stdstorage_erase s addr size = (.error .InvalidArgument, s)) ∧
    (addr % s.secSize = 0 → size = s.secSize →
      (stdstorage_erase s addr size).1 = .ok () ∧
      (addr / s.secSize) ∉ (stdstorage_erase s addr size).2.cache ∧
      (stdstorage_erase s addr size).2.files (addr / s.secSize) =
        some (List.replicate size 255) ∧
      (∀ j, j ≠ addr / s.secSize →
        (stdstorage_erase s addr size).2.files j = s.files j) ∧
      (stdstorage_erase s addr size).2.position = s.position) := by
  constructor
  · intro h
    simp only [stdstorage_erase, hM]
    rw [if_pos h]
  · intro h1 h2
    have hcond : ¬(addr % s.secSize ≠ 0 ∨ size ≠ s.secSize) := by
      simp [h1, h2]
    refine ⟨?_, ?_, ?_, ?_, ?_⟩
    · simp only [stdstorage_erase, hM]
      rw [if_neg hcond]
    · simp only [stdstorage_erase, hM]
      rw [if_neg hcond]
      simp [List.mem_filter]
    · simp only [stdstorage_erase, hM]
      rw [if_neg hcond]
      simp [fileUpdate, fileWriteAt]
    · intro j hj
      simp only [stdstorage_erase, hM]
      rw [if_neg hcond]
      simp [fileUpdate, hj]
    · simp only [stdstorage_erase, hM]
      rw [if_neg hcond]

/-- C8 witness: a `Multi` medium with unit 0 cached and holding stale
bytes: `erase(0, 4096)` succeeds, uncaches unit 0 and leaves it full
of 0xFF with unit 1 untouched, while `erase(1, 4096)` (misaligned) is
rejected in place. -/
theorem c8_witness :
    (stdstorage_erase
        ⟨.Multi, 4096, fun j => if j = 0 then some [1, 2, 3] else none, [0], 7⟩
        0 4096).2.files 0 = some (List.replicate 4096 255) ∧
    (0 : Nat) ∉ (stdstorage_erase
        ⟨.Multi, 4096, fun j => if j = 0 then some [1, 2, 3] else none, [0], 7⟩
        0 4096).2.cache ∧
    stdstorage_erase
        ⟨.Multi, 4096, fun j => if j = 0 then some [1, 2, 3] else none, [0], 7⟩
        1 4096 =
      (.error .InvalidArgument,
        ⟨.Multi, 4096, fun j => if j = 0 then some [1, 2, 3] else none, [0], 7⟩) := by
  have h := c8_multi_erase
    ⟨.Multi, 4096, fun j => if j = 0 then some [1, 2, 3] else none, [0], 7⟩
    0 4096 rfl
  have h2 := c8_multi_erase
    ⟨.Multi, 4096, fun j => if j = 0 then some [1, 2, 3] else none, [0], 7⟩
    1 4096 rfl
  have hok := h.2 (by decide) (by decide)
  exact ⟨hok.2.2.1, hok.2.1, h2.1 (Or.inl (by decide))⟩
